import Mathlib

/-!
Shallow embedding of the position-lifecycle engine of the BinanceFutureBot
repository (files `trading_strategy.py`, `background_scheduler.py`,
`okx_client.py`, `database.py`).  Prices, USDT amounts and contract
quantities are modelled as rationals; nullable database columns and fallible
exchange calls are modelled with `Option`; timestamps are integer seconds.
-/

namespace BinanceFutureBot

/-! ## Python-style rounding

`round(x, 2)` in Python rounds half to even at two decimal places. -/

/-- Round a rational to the nearest integer, ties to even (Python `round`). -/
def roundHalfEven (q : ℚ) : ℤ :=
  let f := ⌊q⌋
  let r := q - (f : ℚ)
  if r < 1/2 then f
  else if 1/2 < r then f + 1
  else if f % 2 = 0 then f else f + 1

/-- Python `round(x, 2)`: round to two decimal places, ties to even. -/
def round2 (q : ℚ) : ℚ := (roundHalfEven (q * 100) : ℚ) / 100

/-! ## `TradingCalculator` (`trading_strategy.py`, lines 34-74) -/

/-- `TradingCalculator.calculate_quantity_for_usdt`: divides the USDT amount
by the USDT value of one contract and rounds the result to 2 decimal places.
The `leverage` and `lot_size` arguments are accepted but unused in the
source body. -/
def calculate_quantity_for_usdt (amount_usdt : ℚ) (leverage : ℤ)
    (current_price : ℚ) (contract_value : ℚ) (lot_size : ℚ) : ℚ :=
  let _ := leverage
  let _ := lot_size
  let contract_usdt_value := contract_value * current_price
  let exact_contracts := amount_usdt / contract_usdt_value
  round2 exact_contracts

/-- `OKXTestnetClient.round_to_lot_size` (`okx_client.py`, lines 268-270):
despite its name it ignores `lot_size` and rounds to 2 decimal places. -/
def round_to_lot_size (quantity : ℚ) (lot_size : ℚ) : ℚ :=
  let _ := lot_size
  round2 quantity

/-- `TradingCalculator.calculate_tp_sl_prices`: derives the TP/SL trigger
prices from USDT PnL targets.  The source divides by
`quantity * contract_value` without a guard; a zero product raises
`ZeroDivisionError` in Python, modelled here as `none`. -/
def calculate_tp_sl_prices (entry_price : ℚ) (side : String)
    (tp_usdt sl_usdt quantity contract_value : ℚ) : Option (ℚ × ℚ) :=
  let crypto_amount := quantity * contract_value
  if crypto_amount = 0 then none
  else
    let price_change_tp := tp_usdt / crypto_amount
    let price_change_sl := sl_usdt / crypto_amount
    if side = "LONG" then
      some (entry_price + price_change_tp, entry_price - price_change_sl)
    else
      some (entry_price - price_change_tp, entry_price + price_change_sl)

/-! ## Data model (`database.py` `Position` row, OKX objects) -/

/-- A position as reported by `OKXTestnetClient.get_position`. -/
structure OkxPosition where
  positionAmt : ℚ
  unrealizedProfit : ℚ
  entryPrice : ℚ
  posId : Option String
deriving DecidableEq, Repr

/-- A `Position` database row (`database.py`, lines 136-164). -/
structure Position where
  id : ℕ
  symbol : String
  side : String
  amount_usdt : ℚ
  leverage : ℤ
  tp_usdt : ℚ
  sl_usdt : ℚ
  original_tp_usdt : Option ℚ
  original_sl_usdt : Option ℚ
  entry_price : ℚ
  quantity : ℚ
  order_id : Option String
  position_id : Option String
  position_side : Option String
  tp_order_id : Option String
  sl_order_id : Option String
  is_open : Bool
  opened_at : ℤ
  closed_at : Option ℤ
  pnl : Option ℚ
  close_reason : Option String
  parent_position_id : Option ℕ
  recovery_count : Option ℕ
  last_recovery_at : Option ℤ
  orders_disabled : Bool
deriving DecidableEq, Repr

/-- `pos.recovery_count if pos.recovery_count else 0` / `pos.recovery_count
or 0`: a missing (or zero) stored counter counts as zero. -/
def recoveryCount (p : Position) : ℕ := p.recovery_count.getD 0

/-- `pos.position_side if pos.position_side else ("long" if pos.side ==
"LONG" else "short")`; an empty string is falsy in Python. -/
def positionSideOf (p : Position) : String :=
  match p.position_side with
  | some s => if s = "" then (if p.side = "LONG" then "long" else "short") else s
  | none => if p.side = "LONG" then "long" else "short"

/-- Replace the first row matching the id, as a SQLAlchemy
`filter(Position.id == i).first()` followed by field updates and commit. -/
def updateFirst (db : List Position) (i : ℕ) (f : Position → Position) :
    List Position :=
  match db with
  | [] => []
  | p :: rest => if p.id = i then f p :: rest else p :: updateFirst rest i f

/-- One rung of the recovery ladder (`_load_recovery_settings`,
`background_scheduler.py`, lines 74-101). -/
structure RecoveryStep where
  trigger_pnl : ℚ
  add_amount : ℚ
  tp_usdt : ℚ
  sl_usdt : ℚ
deriving DecidableEq, Repr

/-- An entry of `positions_to_recover` (`check_recovery`, lines 170-180). -/
structure RecoveryTask where
  pos_id : ℕ
  add_amount : ℚ
  tp_usdt : ℚ
  sl_usdt : ℚ
  step_num : ℕ
deriving DecidableEq, Repr

/-- The exchange-facing calls `Try1Strategy.execute_recovery` makes, plus the
clock.  Each field models one `OKXTestnetClient` method. -/
structure RecoveryEnv where
  get_position : String → String → Option OkxPosition
  get_symbol_price : String → Option ℚ
  add_to_position : String → String → ℚ → String → Bool
  get_position_after_add : String → String → Option OkxPosition
  contract_value : String → ℚ
  lot_size : String → ℚ
  place_tp_sl_orders : String → String → ℚ → ℚ → ℚ → ℚ → String →
    Option String × Option String
  now : ℤ

/-! ## `Try1Strategy.execute_recovery` (`trading_strategy.py`, lines 363-494)

The body is split into the fallible step (`recovery_step_outcome`, everything
between the row lookup and the commit) and the wrapper that finds the row and
commits the single update.  Every `return False` path of the source, and the
`except` path reached by `ZeroDivisionError`, is an `error`; the `ok` value
is the updated row exactly as built at lines 468-479. -/

/-- The fallible part of a recovery step, acting on the row `pos` found for
the requested id.  `error` models `return False, msg` (after `db.rollback()`
for the exception path): the row is not written. -/
def recovery_step_outcome (env : RecoveryEnv) (pos : Position)
    (add_amount_usdt new_tp_usdt new_sl_usdt : ℚ) : Except String Position :=
  if pos.is_open = false then .error "Pozisyon acik degil"
  else
    let symbol := pos.symbol
    let side := pos.side
    let position_side := positionSideOf pos
    match env.get_position symbol position_side with
    | none => .error "Pozisyon OKXte bulunamadi veya kapali"
    | some okx_pos_check =>
      if |okx_pos_check.positionAmt| = 0 then
        .error "Pozisyon OKXte bulunamadi veya kapali"
      else
        match env.get_symbol_price symbol with
        | none => .error "Fiyat alinamadi"
        | some current_price =>
          if current_price = 0 then .error "Fiyat alinamadi"
          else if env.contract_value symbol * current_price = 0 then
            .error "Recovery hatasi: ZeroDivisionError"
          else
            let add_quantity := calculate_quantity_for_usdt add_amount_usdt
              pos.leverage current_price (env.contract_value symbol)
              (env.lot_size symbol)
            if add_quantity < 1/100 then
              .error "Ekleme miktari cok dusuk (minimum 0.01 kontrat)"
            else if env.add_to_position symbol side add_quantity position_side
                = false then
              .error "Pozisyona ekleme yapilamadi"
            else
              match env.get_position_after_add symbol position_side with
              | none => .error "Guncel pozisyon bilgisi alinamadi"
              | some okx_pos =>
                let new_entry_price := okx_pos.entryPrice
                let new_quantity := |okx_pos.positionAmt|
                let new_pos_id := okx_pos.posId
                if new_quantity = 0 then .error "Pozisyon miktari 0"
                else
                  match calculate_tp_sl_prices new_entry_price side new_tp_usdt
                      new_sl_usdt new_quantity (env.contract_value symbol) with
                  | none => .error "Recovery hatasi: ZeroDivisionError"
                  | some (tp_price, sl_price) =>
                    let ids := env.place_tp_sl_orders symbol side new_quantity
                      new_entry_price tp_price sl_price position_side
                    .ok { pos with
                      entry_price := new_entry_price
                      quantity := new_quantity
                      position_id := new_pos_id
                      tp_usdt := new_tp_usdt
                      sl_usdt := new_sl_usdt
                      tp_order_id := ids.1
                      sl_order_id := ids.2
                      recovery_count := some (recoveryCount pos + 1)
                      last_recovery_at := some env.now }

/-- `Try1Strategy.execute_recovery`: returns `(success, message)` and the
database after the call. -/
def execute_recovery (env : RecoveryEnv) (db : List Position)
    (position_db_id : ℕ) (add_amount_usdt new_tp_usdt new_sl_usdt : ℚ) :
    (Bool × String) × List Position :=
  match db.find? (fun p => p.id == position_db_id) with
  | none => ((false, "Pozisyon bulunamadi"), db)
  | some pos =>
    match recovery_step_outcome env pos add_amount_usdt new_tp_usdt
        new_sl_usdt with
    | .error msg => ((false, msg), db)
    | .ok updated => ((true, "RECOVERY tamamlandi"),
        updateFirst db position_db_id (fun _ => updated))

/-! ## `PositionMonitor.check_recovery` (`background_scheduler.py`, lines
114-213)

The job first collects, from the open rows, every position whose next
recovery step has triggered (`positions_to_recover`), then runs
`execute_recovery` on each collected entry. -/

/-- The collection loop at lines 134-180: one optional `RecoveryTask` per
open row. -/
def check_recovery_collect (steps : List RecoveryStep)
    (positions_in_recovery : List ℕ)
    (get_position : String → String → Option OkxPosition)
    (open_positions : List Position) : List RecoveryTask :=
  open_positions.filterMap (fun pos =>
    if pos.id ∈ positions_in_recovery then none
    else
      let current_recovery_count := recoveryCount pos
      if steps.length ≤ current_recovery_count then none
      else
        match steps[current_recovery_count]? with
        | none => none
        | some next_step =>
          match get_position pos.symbol (positionSideOf pos) with
          | none => none
          | some okx_pos =>
            if |okx_pos.positionAmt| = 0 then none
            else if okx_pos.unrealizedProfit ≤ next_step.trigger_pnl then
              some { pos_id := pos.id, add_amount := next_step.add_amount,
                     tp_usdt := next_step.tp_usdt, sl_usdt := next_step.sl_usdt,
                     step_num := current_recovery_count + 1 }
            else none)

/-- One full run of `check_recovery`: guard clauses (recovery disabled,
client not configured, no steps), collection, then the firing loop calling
`execute_recovery` per collected task. -/
def check_recovery_tick (enabled configured : Bool) (steps : List RecoveryStep)
    (positions_in_recovery : List ℕ) (env : RecoveryEnv)
    (db : List Position) : List Position :=
  if enabled = false then db
  else if configured = false then db
  else if steps.isEmpty then db
  else
    let tasks := check_recovery_collect steps positions_in_recovery
      env.get_position (db.filter (fun p => p.is_open))
    tasks.foldl (fun d task =>
      (execute_recovery env d task.pos_id task.add_amount task.tp_usdt
        task.sl_usdt).2) db

/-! ## `PositionMonitor.reopen_closed_positions` (`background_scheduler.py`,
lines 455-494: the delay gate and the selection of reopen attempts)

The in-memory queue `closed_positions_for_reopen` maps a position id to the
closure timestamp recorded by `check_positions`. -/

/-- `current_time >= closed_time + timedelta(minutes=auto_reopen_delay_minutes)`
with times in seconds. -/
def reopen_due (current_time closed_time auto_reopen_delay_minutes : ℤ) :
    Bool := closed_time + auto_reopen_delay_minutes * 60 ≤ current_time

/-- The ids the job goes on to reopen (`positions_to_reopen`): queue entries
past their delay, whose row still exists, and that are not already open on
the exchange. -/
def reopen_attempts (current_time auto_reopen_delay_minutes : ℤ)
    (closed_positions_for_reopen : List (ℕ × ℤ)) (db : List Position)
    (get_position : String → String → Option OkxPosition) : List ℕ :=
  closed_positions_for_reopen.filterMap (fun e =>
    if reopen_due current_time e.2 auto_reopen_delay_minutes then
      match db.find? (fun p => p.id == e.1) with
      | none => none
      | some pos =>
        match get_position pos.symbol (positionSideOf pos) with
        | some okx_pos => if 0 < |okx_pos.positionAmt| then none else some e.1
        | none => some e.1
    else none)

/-! ## `PositionMonitor.cancel_orphaned_orders` (`background_scheduler.py`,
lines 394-453) -/

/-- An algo order as returned by `get_all_open_orders`. -/
structure AlgoOrder where
  instId : String
  posSide : String
  ordType : String
  state : String
  algoId : Option String
deriving DecidableEq, Repr

/-- An entry of `get_all_positions`. -/
structure ExchangePosition where
  instId : String
  posSide : String
  positionAmt : ℚ
deriving DecidableEq, Repr

/-- Python truthiness of an optional string: `None` and `""` are falsy. -/
def truthyStr : Option String → Bool
  | none => false
  | some s => s ≠ ""

/-- The contribution of one stored order id to `active_tp_sl_ids`: truthy
ids only. -/
def optOrderId : Option String → List String
  | some s => if s = "" then [] else [s]
  | none => []

/-- `active_tp_sl_ids` (lines 401-408): the TP/SL order ids of open rows,
skipping falsy ids. -/
def active_tp_sl_ids (db : List Position) : List String :=
  (db.filter (fun p => p.is_open)).foldr
    (fun p acc => optOrderId p.tp_order_id ++ optOrderId p.sl_order_id ++ acc)
    []

/-- `position_keys` (lines 415-422): (instId, posSide) pairs with a nonzero
exchange position. -/
def position_keys (all_positions : List ExchangePosition) :
    List (String × String) :=
  all_positions.filterMap (fun p =>
    if 0 < |p.positionAmt| then some (p.instId, p.posSide) else none)

/-- The ids for which the loop at lines 424-447 issues
`cancel_algo_order`. -/
def cancel_orphaned_orders (db : List Position) (all_orders : List AlgoOrder)
    (all_positions : List ExchangePosition) : List String :=
  let active := active_tp_sl_ids db
  let keys := position_keys all_positions
  all_orders.filterMap (fun o =>
    if o.state ≠ "live" then none
    else if truthyStr o.algoId = true ∧ o.algoId.getD "" ∈ active then none
    else if (o.instId, o.posSide) ∉ keys then
      match o.algoId with
      | some aid => if aid = "" then none else some aid
      | none => none
    else none)

/-! ## Scheduler start/stop (`background_scheduler.py`, lines 619-756)

`PositionMonitor.start`/`stop` toggle the APScheduler; `start_monitor` and
`stop_monitor` manage the module-level singleton, the `manually_stopped`
flag, the per-position `orders_disabled` reset and the `recovery_enabled`
setting. -/

/-- The scheduler-relevant state of a `PositionMonitor` instance. -/
structure PositionMonitorState where
  running : Bool
  auto_reopen_delay_minutes : ℤ
deriving DecidableEq, Repr

/-- `PositionMonitor.start` (lines 619-664): starts the scheduler when it is
not running, otherwise does nothing. -/
def PositionMonitorState.start (m : PositionMonitorState) :
    PositionMonitorState :=
  if m.running = false then { m with running := true } else m

/-- `PositionMonitor.stop` (lines 666-671): shuts the scheduler down when it
is running, otherwise does nothing. -/
def PositionMonitorState.stop (m : PositionMonitorState) :
    PositionMonitorState :=
  if m.running = true then { m with running := false } else m

/-- Module-level state: the `monitor` singleton, the `manually_stopped`
flag, the `Position` rows and the `recovery_enabled` setting value. -/
structure BotState where
  monitor : Option PositionMonitorState
  manually_stopped : Bool
  positions : List Position
  recovery_enabled : Option String
deriving DecidableEq, Repr

/-- `monitor.is_running()` on the singleton, false when it is `None`. -/
def monitor_is_running (s : BotState) : Bool :=
  match s.monitor with
  | none => false
  | some m => m.running

/-- `stop_monitor` (lines 702-711). -/
def stop_monitor (s : BotState) : Bool × BotState :=
  match s.monitor with
  | some m =>
    if m.running then
      (true, { s with monitor := some m.stop, manually_stopped := true })
    else (false, s)
  | none => (false, s)

/-- `start_monitor` (lines 713-756): clears `manually_stopped`, resets
`orders_disabled` on every row, force-enables `recovery_enabled`, then
creates and starts a monitor when none is running; with a running monitor it
falls through to `return False`. -/
def start_monitor (s : BotState) (auto_reopen_delay_minutes : ℤ) :
    Bool × BotState :=
  let s1 : BotState :=
    { s with
      manually_stopped := false
      positions := s.positions.map (fun p => { p with orders_disabled := false })
      recovery_enabled := some "true" }
  let fresh : PositionMonitorState :=
    PositionMonitorState.start ⟨false, auto_reopen_delay_minutes⟩
  match s1.monitor with
  | none => (true, { s1 with monitor := some fresh })
  | some m =>
    if m.running = false then (true, { s1 with monitor := some fresh })
    else (false, s1)

/-! ## Helper lemmas -/

/-- Rounding half-to-even never maps a nonnegative rational below zero. -/
theorem roundHalfEven_nonneg (q : ℚ) (hq : 0 ≤ q) : 0 ≤ roundHalfEven q := by
  have hf : (0 : ℤ) ≤ ⌊q⌋ := Int.floor_nonneg.mpr hq
  unfold roundHalfEven
  dsimp only
  split_ifs <;> omega

/-- Round-trip helper: adding `d / m` and multiplying back by `m` recovers
`d`. -/
theorem mul_div_round_trip_add (a d m : ℚ) (h : m ≠ 0) :
    (a + d / m - a) * m = d := by
  rw [add_sub_cancel_left]
  exact div_mul_cancel₀ d h

/-- Round-trip helper: subtracting `d / m` and multiplying the difference
back by `m` recovers `d`. -/
theorem mul_div_round_trip_sub (a d m : ℚ) (h : m ≠ 0) :
    (a - (a - d / m)) * m = d := by
  rw [sub_sub_cancel]
  exact div_mul_cancel₀ d h

/-- `round2` of a nonnegative rational is nonnegative. -/
theorem round2_nonneg (q : ℚ) (hq : 0 ≤ q) : 0 ≤ round2 q := by
  have h : 0 ≤ roundHalfEven (q * 100) :=
    roundHalfEven_nonneg _ (by positivity)
  unfold round2
  positivity

/-! ## C1 -/

/-- C1 fails on the code: `calculate_quantity_for_usdt` rounds to two
decimal places and ignores `lot_size`.  At `amount_usdt = 5`,
`leverage = 1`, `price = 100`, `contract_value = 1`, `lot_size = 0.1` the
result is `0.05`, which is below one lot and not a multiple of the lot
size. -/
theorem C1_counterexample :
    calculate_quantity_for_usdt 5 1 100 1 (1/10) = 1/20 ∧
    (1/20 : ℚ) < 1/10 ∧
    ¬ ∃ k : ℤ, (1/20 : ℚ) = (k : ℚ) * (1/10) := by
  refine ⟨?_, by norm_num, ?_⟩
  · norm_num [calculate_quantity_for_usdt, round2, roundHalfEven]
  · rintro ⟨k, hk⟩
    have h2 : ((2 * k : ℤ) : ℚ) = 1 := by push_cast; linarith
    have h3 : (2 * k : ℤ) = 1 := by exact_mod_cast h2
    omega

/-- C1 (amended): for positive `amount_usdt`, `price` and `contract_value`,
`calculate_quantity_for_usdt` returns
`round_to_lot_size(amount_usdt / (contract_value * price), lot_size)`, where
`round_to_lot_size` rounds to two decimal places and ignores the lot size:
the result is nonnegative, is an integer multiple of `0.01`, and depends on
neither the `leverage` nor the `lot_size` argument.  It need not be a
multiple of `lot_size` and may lie below one lot. -/
theorem C1_quantity_formula (amount_usdt : ℚ) (leverage leverage' : ℤ)
    (current_price contract_value lot_size lot_size' : ℚ)
    (ha : 0 < amount_usdt) (hp : 0 < current_price)
    (hc : 0 < contract_value) :
    calculate_quantity_for_usdt amount_usdt leverage current_price
        contract_value lot_size
      = round_to_lot_size (amount_usdt / (contract_value * current_price))
        lot_size ∧
    0 ≤ calculate_quantity_for_usdt amount_usdt leverage current_price
        contract_value lot_size ∧
    (∃ k : ℤ, calculate_quantity_for_usdt amount_usdt leverage current_price
        contract_value lot_size = (k : ℚ) / 100) ∧
    calculate_quantity_for_usdt amount_usdt leverage current_price
        contract_value lot_size
      = calculate_quantity_for_usdt amount_usdt leverage' current_price
        contract_value lot_size' := by
  refine ⟨rfl, ?_, ⟨roundHalfEven (amount_usdt / (contract_value * current_price) * 100), rfl⟩, rfl⟩
  exact round2_nonneg _ (by positivity)

/-- Witness for C1 (amended) at `amount = 1000`, `leverage = 20`,
`price = 100`, `contract_value = 0.01`, `lot_size = 0.01`. -/
theorem C1_quantity_formula_witness :
    calculate_quantity_for_usdt 1000 20 100 (1/100) (1/100)
      = round_to_lot_size (1000 / ((1/100) * 100)) (1/100) ∧
    0 ≤ calculate_quantity_for_usdt 1000 20 100 (1/100) (1/100) ∧
    (∃ k : ℤ, calculate_quantity_for_usdt 1000 20 100 (1/100) (1/100)
      = (k : ℚ) / 100) ∧
    calculate_quantity_for_usdt 1000 20 100 (1/100) (1/100)
      = calculate_quantity_for_usdt 1000 1 100 (1/100) 1 :=
  C1_quantity_formula 1000 20 1 100 (1/100) (1/100) 1
    (by norm_num) (by norm_num) (by norm_num)

/-! ## C2 -/

/-- C2: with `quantity * contract_value ≠ 0`, `calculate_tp_sl_prices`
returns `entry ± tp_usdt/(q*cv)` and `entry ∓ sl_usdt/(q*cv)` for
LONG/SHORT, the returned prices satisfy the inverse-PnL round-trip law, and
the concrete scenario `entry=100, LONG, tp=10, sl=5, q=10, cv=0.01` yields
`(200, 50)`. -/
theorem C2_tp_sl_round_trip :
    (∀ (entry_price tp_usdt sl_usdt quantity contract_value : ℚ),
      quantity * contract_value ≠ 0 →
      calculate_tp_sl_prices entry_price "LONG" tp_usdt sl_usdt quantity
          contract_value
        = some (entry_price + tp_usdt / (quantity * contract_value),
                entry_price - sl_usdt / (quantity * contract_value)) ∧
      calculate_tp_sl_prices entry_price "SHORT" tp_usdt sl_usdt quantity
          contract_value
        = some (entry_price - tp_usdt / (quantity * contract_value),
                entry_price + sl_usdt / (quantity * contract_value)) ∧
      (∀ tp_price sl_price,
        calculate_tp_sl_prices entry_price "LONG" tp_usdt sl_usdt quantity
            contract_value = some (tp_price, sl_price) →
        (tp_price - entry_price) * (quantity * contract_value) = tp_usdt ∧
        (entry_price - sl_price) * (quantity * contract_value) = sl_usdt) ∧
      (∀ tp_price sl_price,
        calculate_tp_sl_prices entry_price "SHORT" tp_usdt sl_usdt quantity
            contract_value = some (tp_price, sl_price) →
        (entry_price - tp_price) * (quantity * contract_value) = tp_usdt ∧
        (sl_price - entry_price) * (quantity * contract_value) = sl_usdt)) ∧
    calculate_tp_sl_prices 100 "LONG" 10 5 10 (1/100) = some (200, 50) := by
  constructor
  · intro entry_price tp_usdt sl_usdt quantity contract_value h
    have hL : calculate_tp_sl_prices entry_price "LONG" tp_usdt sl_usdt
        quantity contract_value
      = some (entry_price + tp_usdt / (quantity * contract_value),
              entry_price - sl_usdt / (quantity * contract_value)) := by
      unfold calculate_tp_sl_prices
      rw [if_neg h, if_pos rfl]
    have hS : calculate_tp_sl_prices entry_price "SHORT" tp_usdt sl_usdt
        quantity contract_value
      = some (entry_price - tp_usdt / (quantity * contract_value),
              entry_price + sl_usdt / (quantity * contract_value)) := by
      unfold calculate_tp_sl_prices
      rw [if_neg h, if_neg (by decide)]
    refine ⟨hL, hS, ?_, ?_⟩
    · intro tp_price sl_price heq
      rw [hL] at heq
      simp only [Option.some.injEq, Prod.mk.injEq] at heq
      obtain ⟨h1, h2⟩ := heq
      subst h1
      subst h2
      exact ⟨mul_div_round_trip_add _ _ _ h, mul_div_round_trip_sub _ _ _ h⟩
    · intro tp_price sl_price heq
      rw [hS] at heq
      simp only [Option.some.injEq, Prod.mk.injEq] at heq
      obtain ⟨h1, h2⟩ := heq
      subst h1
      subst h2
      exact ⟨mul_div_round_trip_sub _ _ _ h, mul_div_round_trip_add _ _ _ h⟩
  · norm_num [calculate_tp_sl_prices]

/-- Witness for C2: instantiating the LONG price formula at the scenario
inputs. -/
theorem C2_tp_sl_round_trip_witness :
    calculate_tp_sl_prices 100 "LONG" 10 5 10 (1/100)
      = some (100 + 10 / (10 * (1/100)), 100 - 5 / (10 * (1/100))) :=
  (C2_tp_sl_round_trip.1 100 10 5 10 (1/100) (by norm_num)).1

/-! ## C10 -/

/-- C10: `calculate_tp_sl_prices` divides by `quantity * contract_value`
without a guard: it fails (Python `ZeroDivisionError`, modelled `none`)
exactly when `quantity = 0` or `contract_value = 0`, and returns a pair of
prices exactly when `quantity * contract_value ≠ 0`. -/
theorem C10_unguarded_division (entry_price : ℚ) (side : String)
    (tp_usdt sl_usdt quantity contract_value : ℚ) :
    (calculate_tp_sl_prices entry_price side tp_usdt sl_usdt quantity
        contract_value = none ↔ (quantity = 0 ∨ contract_value = 0)) ∧
    ((calculate_tp_sl_prices entry_price side tp_usdt sl_usdt quantity
        contract_value).isSome = true ↔ quantity * contract_value ≠ 0) := by
  unfold calculate_tp_sl_prices
  by_cases h : quantity * contract_value = 0
  · simp [h, mul_eq_zero.mp h, mul_eq_zero]
  · have := mul_eq_zero.not.mp h
    split_ifs with hside <;> simp_all [mul_eq_zero]

/-- Witness for C10: at `quantity = 0` the call fails; at `quantity = 10`,
`contract_value = 0.01` it returns a value. -/
theorem C10_unguarded_division_witness :
    calculate_tp_sl_prices 100 "LONG" 10 5 0 1 = none ∧
    (calculate_tp_sl_prices 100 "LONG" 10 5 10 (1/100)).isSome = true :=
  ⟨(C10_unguarded_division 100 "LONG" 10 5 0 1).1.mpr (Or.inl rfl),
   (C10_unguarded_division 100 "LONG" 10 5 10 (1/100)).2.mpr (by norm_num)⟩

/-! ## Recovery-step lemmas -/

/-- A successful `recovery_step_outcome` is the source's record update of
lines 468-479: the nine mutated fields take the step's values and every
other field is copied from `pos`. -/
theorem recovery_step_outcome_ok (env : RecoveryEnv) (pos upd : Position)
    (a tp sl : ℚ) (h : recovery_step_outcome env pos a tp sl = .ok upd) :
    upd.id = pos.id ∧ upd.symbol = pos.symbol ∧ upd.side = pos.side ∧
    upd.amount_usdt = pos.amount_usdt ∧ upd.leverage = pos.leverage ∧
    upd.original_tp_usdt = pos.original_tp_usdt ∧
    upd.original_sl_usdt = pos.original_sl_usdt ∧
    upd.order_id = pos.order_id ∧ upd.position_side = pos.position_side ∧
    upd.is_open = pos.is_open ∧ upd.opened_at = pos.opened_at ∧
    upd.closed_at = pos.closed_at ∧ upd.pnl = pos.pnl ∧
    upd.close_reason = pos.close_reason ∧
    upd.parent_position_id = pos.parent_position_id ∧
    upd.orders_disabled = pos.orders_disabled ∧
    upd.tp_usdt = tp ∧ upd.sl_usdt = sl ∧
    upd.recovery_count = some (recoveryCount pos + 1) ∧
    upd.last_recovery_at = some env.now := by
  unfold recovery_step_outcome at h
  dsimp only at h
  repeat' split at h
  all_goals first
    | exact Except.noConfusion h
    | (simp only [Except.ok.injEq] at h
       subst h
       repeat' constructor)

/-- `execute_recovery` either leaves the database unchanged or commits a
single `updateFirst` with a successfully produced row. -/
theorem execute_recovery_cases (env : RecoveryEnv) (db : List Position)
    (i : ℕ) (a tp sl : ℚ) :
    ((execute_recovery env db i a tp sl).1.1 = false ∧
      (execute_recovery env db i a tp sl).2 = db) ∨
    ∃ pos upd, db.find? (fun p => p.id == i) = some pos ∧
      recovery_step_outcome env pos a tp sl = .ok upd ∧
      (execute_recovery env db i a tp sl).1.1 = true ∧
      (execute_recovery env db i a tp sl).2
        = updateFirst db i (fun _ => upd) := by
  unfold execute_recovery
  cases hfind : db.find? (fun p => p.id == i) with
  | none => exact Or.inl ⟨rfl, rfl⟩
  | some pos =>
    dsimp only
    cases hout : recovery_step_outcome env pos a tp sl with
    | error msg => exact Or.inl ⟨rfl, rfl⟩
    | ok upd => exact Or.inr ⟨pos, upd, rfl, hout, rfl, rfl⟩

/-! ## C4 -/

/-- C4: whenever `execute_recovery` reports failure — any pre-commit abort
(position row missing or closed, exchange position missing or flat, price
unavailable, add quantity below 0.01, add order rejected, post-add position
unreadable, zero post-add quantity, or the exception path) — the persisted
rows are returned unchanged, so the same step stays eligible next tick. -/
theorem C4_failure_leaves_db (env : RecoveryEnv) (db : List Position)
    (i : ℕ) (a tp sl : ℚ)
    (h : (execute_recovery env db i a tp sl).1.1 = false) :
    (execute_recovery env db i a tp sl).2 = db := by
  rcases execute_recovery_cases env db i a tp sl with ⟨_, hdb⟩ | ⟨_, _, _, _, hs, _⟩
  · exact hdb
  · rw [hs] at h
    exact absurd h (by simp)

/-- A concrete exchange environment used by the witnesses. -/
def envSample : RecoveryEnv where
  get_position := fun _ _ => some ⟨1, -60, 100, some "p1"⟩
  get_symbol_price := fun _ => some 100
  add_to_position := fun _ _ _ _ => true
  get_position_after_add := fun _ _ => some ⟨2, -60, 95, some "p2"⟩
  contract_value := fun _ => 1
  lot_size := fun _ => 1/100
  place_tp_sl_orders := fun _ _ _ _ _ _ _ => (some "tp1", some "sl1")
  now := 1700000000

/-- A concrete open position row used by the witnesses. -/
def posSample : Position where
  id := 1
  symbol := "BTCUSDT"
  side := "LONG"
  amount_usdt := 100
  leverage := 10
  tp_usdt := 8
  sl_usdt := 500
  original_tp_usdt := some 8
  original_sl_usdt := some 500
  entry_price := 100
  quantity := 1
  order_id := some "o1"
  position_id := some "p1"
  position_side := some "long"
  tp_order_id := some "t1"
  sl_order_id := some "s1"
  is_open := true
  opened_at := 0
  closed_at := none
  pnl := none
  close_reason := none
  parent_position_id := none
  recovery_count := some 0
  last_recovery_at := none
  orders_disabled := false

/-- Witness for C4: with an empty database the call fails and returns the
database unchanged. -/
theorem C4_failure_leaves_db_witness :
    (execute_recovery envSample [] 1 3000 30 1200).1.1 = false ∧
    (execute_recovery envSample [] 1 3000 30 1200).2 = [] :=
  ⟨rfl, C4_failure_leaves_db envSample [] 1 3000 30 1200 rfl⟩

/-! ## C7 -/

/-- C7: a successful `execute_recovery` commits exactly one row update,
setting only `entry_price`, `quantity`, `position_id`, `tp_usdt`, `sl_usdt`,
`tp_order_id`, `sl_order_id`, `recovery_count` (incremented once) and
`last_recovery_at`; every other field — in particular `amount_usdt`, and
also `original_tp_usdt`, `original_sl_usdt`, `symbol`, `side`, `leverage`
and `is_open` — is copied unchanged from the stored row. -/
theorem C7_success_frame (env : RecoveryEnv) (db : List Position) (i : ℕ)
    (a tp sl : ℚ) (h : (execute_recovery env db i a tp sl).1.1 = true) :
    ∃ pos upd, db.find? (fun p => p.id == i) = some pos ∧
      (execute_recovery env db i a tp sl).2
        = updateFirst db i (fun _ => upd) ∧
      upd.amount_usdt = pos.amount_usdt ∧
      upd.original_tp_usdt = pos.original_tp_usdt ∧
      upd.original_sl_usdt = pos.original_sl_usdt ∧
      upd.symbol = pos.symbol ∧ upd.side = pos.side ∧
      upd.leverage = pos.leverage ∧ upd.is_open = pos.is_open ∧
      upd.id = pos.id ∧ upd.order_id = pos.order_id ∧
      upd.position_side = pos.position_side ∧
      upd.opened_at = pos.opened_at ∧ upd.closed_at = pos.closed_at ∧
      upd.pnl = pos.pnl ∧ upd.close_reason = pos.close_reason ∧
      upd.parent_position_id = pos.parent_position_id ∧
      upd.orders_disabled = pos.orders_disabled ∧
      upd.tp_usdt = tp ∧ upd.sl_usdt = sl ∧
      upd.recovery_count = some (recoveryCount pos + 1) ∧
      upd.last_recovery_at = some env.now := by
  rcases execute_recovery_cases env db i a tp sl with ⟨hf, _⟩ | ⟨pos, upd, hfind, hout, _, hupd⟩
  · rw [h] at hf
    exact absurd hf (by simp)
  · obtain ⟨h1, h2, h3, h4, h5, h6, h7, h8, h9, h10, h11, h12, h13,
      h14, h15, h16, h17, h18, h19, h20⟩ :=
      recovery_step_outcome_ok env pos upd a tp sl hout
    exact ⟨pos, upd, hfind, hupd, h4, h6, h7, h2, h3, h5, h10, h1, h8,
      h9, h11, h12, h13, h14, h15, h16, h17, h18, h19, h20⟩

/-- Witness for C7: a successful recovery on the sample environment and
row. -/
theorem C7_success_frame_witness :
    (execute_recovery envSample [posSample] 1 3000 30 1200).1.1 = true ∧
    (∃ pos upd, [posSample].find? (fun p => p.id == 1) = some pos ∧
      (execute_recovery envSample [posSample] 1 3000 30 1200).2
        = updateFirst [posSample] 1 (fun _ => upd) ∧
      upd.amount_usdt = pos.amount_usdt ∧
      upd.original_tp_usdt = pos.original_tp_usdt ∧
      upd.original_sl_usdt = pos.original_sl_usdt ∧
      upd.symbol = pos.symbol ∧ upd.side = pos.side ∧
      upd.leverage = pos.leverage ∧ upd.is_open = pos.is_open ∧
      upd.id = pos.id ∧ upd.order_id = pos.order_id ∧
      upd.position_side = pos.position_side ∧
      upd.opened_at = pos.opened_at ∧ upd.closed_at = pos.closed_at ∧
      upd.pnl = pos.pnl ∧ upd.close_reason = pos.close_reason ∧
      upd.parent_position_id = pos.parent_position_id ∧
      upd.orders_disabled = pos.orders_disabled ∧
      upd.tp_usdt = 30 ∧ upd.sl_usdt = 1200 ∧
      upd.recovery_count = some (recoveryCount pos + 1) ∧
      upd.last_recovery_at = some envSample.now) := by
  have hsucc : (execute_recovery envSample [posSample] 1 3000 30 1200).1.1
      = true := by
    norm_num [execute_recovery, recovery_step_outcome, envSample, posSample,
      positionSideOf, calculate_quantity_for_usdt, calculate_tp_sl_prices,
      round2, roundHalfEven, recoveryCount, List.find?]
  exact ⟨hsucc, C7_success_frame envSample [posSample] 1 3000 30 1200 hsucc⟩

/-! ## C3 -/

/-- Every collected recovery task comes from an open row whose recovery
counter is still strictly below the number of configured steps. -/
theorem check_recovery_collect_sound (steps : List RecoveryStep)
    (positions_in_recovery : List ℕ)
    (get_position : String → String → Option OkxPosition)
    (open_positions : List Position) (t : RecoveryTask)
    (ht : t ∈ check_recovery_collect steps positions_in_recovery get_position
      open_positions) :
    ∃ p ∈ open_positions, p.id = t.pos_id ∧
      recoveryCount p < steps.length := by
  obtain ⟨p, hp, hfp⟩ := List.mem_filterMap.mp ht
  refine ⟨p, hp, ?_⟩
  dsimp only at hfp
  repeat' split at hfp
  all_goals try exact Option.noConfusion hfp
  next hnotin hle _ _ _ _ _ _ =>
    simp only [Option.some.injEq] at hfp
    subst hfp
    exact ⟨rfl, by omega⟩

/-- `updateFirst` at an id `j` does not touch the rows with a different id
`i`, provided the update preserves the id of the row it replaces. -/
theorem updateFirst_filter_ne (db : List Position) (j i : ℕ)
    (f : Position → Position) (hf : ∀ p, p.id = j → (f p).id = j)
    (hij : j ≠ i) :
    (updateFirst db j f).filter (fun p => p.id == i)
      = db.filter (fun p => p.id == i) := by
  induction db with
  | nil => rfl
  | cons p rest ih =>
    unfold updateFirst
    by_cases hp : p.id = j
    · rw [if_pos hp]
      have h1 : ((f p).id == i) = false := by
        simp only [beq_eq_false_iff_ne, ne_eq]
        rw [hf p hp]
        exact hij
      have h2 : (p.id == i) = false := by
        simp only [beq_eq_false_iff_ne, ne_eq]
        rw [hp]
        exact hij
      simp only [List.filter_cons, h1, h2]
      rfl
    · rw [if_neg hp]
      simp only [List.filter_cons, ih]

/-- `execute_recovery` aimed at id `j` leaves the rows with id `i ≠ j`
untouched. -/
theorem execute_recovery_filter_ne (env : RecoveryEnv) (db : List Position)
    (j i : ℕ) (a tp sl : ℚ) (hij : j ≠ i) :
    ((execute_recovery env db j a tp sl).2).filter (fun p => p.id == i)
      = db.filter (fun p => p.id == i) := by
  rcases execute_recovery_cases env db j a tp sl with ⟨_, hdb⟩ | ⟨pos, upd, hfind, hout, _, hupd⟩
  · rw [hdb]
  · rw [hupd]
    have hid : pos.id = j := by
      have := List.find?_some hfind
      simpa using this
    have hupdid : upd.id = pos.id :=
      (recovery_step_outcome_ok env pos upd a tp sl hout).1
    exact updateFirst_filter_ne db j i (fun _ => upd)
      (fun _ _ => hupdid.trans hid) hij

/-- Folding `execute_recovery` over tasks that all avoid id `i` preserves
the rows with id `i`. -/
theorem fold_recovery_filter_ne (env : RecoveryEnv) (i : ℕ)
    (tasks : List RecoveryTask) (h : ∀ t ∈ tasks, t.pos_id ≠ i) :
    ∀ db0 : List Position,
      (tasks.foldl (fun d task =>
        (execute_recovery env d task.pos_id task.add_amount task.tp_usdt
          task.sl_usdt).2) db0).filter (fun p => p.id == i)
        = db0.filter (fun p => p.id == i) := by
  induction tasks with
  | nil => intro db0; rfl
  | cons t rest ih =>
    intro db0
    have ht : t.pos_id ≠ i := h t (List.mem_cons_self t rest)
    have hrest : ∀ t' ∈ rest, t'.pos_id ≠ i :=
      fun t' ht' => h t' (List.mem_cons_of_mem t ht')
    simp only [List.foldl_cons]
    rw [ih hrest, execute_recovery_filter_ne env db0 t.pos_id i _ _ _ ht]

/-- C3: a position id all of whose open rows have
`recovery_count >= len(steps)` is recovery-exhausted: `check_recovery`
collects no task for it — so `execute_recovery` is never invoked for it —
and the full tick leaves its rows (in particular their `recovery_count`)
unchanged, whatever the exchange reports for its unrealized PnL. -/
theorem C3_exhausted_never_fires (enabled configured : Bool)
    (steps : List RecoveryStep) (positions_in_recovery : List ℕ)
    (env : RecoveryEnv) (db : List Position) (i : ℕ)
    (h : ∀ p ∈ db, p.id = i → steps.length ≤ recoveryCount p) :
    (∀ t ∈ check_recovery_collect steps positions_in_recovery
        env.get_position (db.filter (fun p => p.is_open)),
      t.pos_id ≠ i) ∧
    (check_recovery_tick enabled configured steps positions_in_recovery env
        db).filter (fun p => p.id == i)
      = db.filter (fun p => p.id == i) := by
  have hcol : ∀ t ∈ check_recovery_collect steps positions_in_recovery
      env.get_position (db.filter (fun p => p.is_open)), t.pos_id ≠ i := by
    intro t ht hti
    obtain ⟨p, hp, hpid, hplt⟩ := check_recovery_collect_sound steps
      positions_in_recovery env.get_position _ t ht
    have hpdb : p ∈ db := (List.mem_filter.mp hp).1
    have := h p hpdb (hpid.trans hti)
    omega
  refine ⟨hcol, ?_⟩
  unfold check_recovery_tick
  split_ifs with h1 h2 h3
  · rfl
  · rfl
  · rfl
  · exact fold_recovery_filter_ne env i _ hcol db

/-- The single recovery step used by the scenario witnesses. -/
def stepSample : RecoveryStep where
  trigger_pnl := -50
  add_amount := 3000
  tp_usdt := 30
  sl_usdt := 1200

/-- A copy of `posSample` that has already consumed the only configured
recovery step. -/
def posExhausted : Position := { posSample with recovery_count := some 1 }

/-- Witness for C3: with one configured step and a row whose counter is 1,
the tick collects nothing for that id and leaves its rows unchanged. -/
theorem C3_exhausted_never_fires_witness :
    (∀ t ∈ check_recovery_collect [stepSample] [] envSample.get_position
        ([posExhausted].filter (fun p => p.is_open)),
      t.pos_id ≠ 1) ∧
    (check_recovery_tick true true [stepSample] [] envSample
        [posExhausted]).filter (fun p => p.id == 1)
      = [posExhausted].filter (fun p => p.id == 1) :=
  C3_exhausted_never_fires true true [stepSample] [] envSample
    [posExhausted] 1 (by
      intro p hp hid
      rw [List.mem_singleton] at hp
      subst hp
      norm_num [posExhausted, posSample, recoveryCount, stepSample])

/-! ## C5 -/

/-- An exchange oracle reporting a flat position, used by the reopen
scenario. -/
def flatGetPosition : String → String → Option OkxPosition :=
  fun _ _ => some ⟨0, 0, 0, none⟩

/-- The queued row of the reopen scenario. -/
def posClosed7 : Position := { posSample with id := 7 }

/-- C5: the reopen job attempts a queued position only once the recorded
closure time plus the configured delay has passed; with delay 5 minutes and
closure at 10:00:00 (36000 s), a tick at 10:04:59 skips it and a tick at
10:05:00 attempts it. -/
theorem C5_reopen_delay_gate :
    (∀ (current_time delay : ℤ) (queue : List (ℕ × ℤ))
        (db : List Position) (gp : String → String → Option OkxPosition)
        (pid : ℕ),
      pid ∈ reopen_attempts current_time delay queue db gp →
      ∃ closed_time : ℤ, (pid, closed_time) ∈ queue ∧
        closed_time + delay * 60 ≤ current_time) ∧
    reopen_attempts 36299 5 [(7, 36000)] [posClosed7] flatGetPosition
      = [] ∧
    reopen_attempts 36300 5 [(7, 36000)] [posClosed7] flatGetPosition
      = [7] := by
  refine ⟨?_, ?_, ?_⟩
  · intro current_time delay queue db gp pid hmem
    unfold reopen_attempts at hmem
    obtain ⟨e, he, hfe⟩ := List.mem_filterMap.mp hmem
    by_cases hdue : reopen_due current_time e.2 delay = true
    · rw [if_pos hdue] at hfe
      have hle : e.2 + delay * 60 ≤ current_time := by
        simpa [reopen_due] using hdue
      have hpid : e.1 = pid := by
        repeat' split at hfe
        all_goals first
          | exact Option.noConfusion hfe
          | exact Option.some.inj hfe
      refine ⟨e.2, ?_, hle⟩
      have : (pid, e.2) = e := by rw [← hpid]
      rw [this]
      exact he
    · rw [if_neg hdue] at hfe
      exact Option.noConfusion hfe
  · norm_num [reopen_attempts, reopen_due, posClosed7, posSample,
      flatGetPosition, List.filterMap_cons, List.find?]
  · norm_num [reopen_attempts, reopen_due, posClosed7, posSample,
      flatGetPosition, List.filterMap_cons, List.find?, positionSideOf]

/-- Witness for C5: instantiating the gate at the 10:05:00 tick. -/
theorem C5_reopen_delay_gate_witness :
    ∃ closed_time : ℤ, ((7 : ℕ), closed_time) ∈ [((7 : ℕ), (36000 : ℤ))] ∧
      closed_time + 5 * 60 ≤ 36300 :=
  C5_reopen_delay_gate.1 36300 5 [(7, 36000)] [posClosed7] flatGetPosition 7
    (by rw [C5_reopen_delay_gate.2.2]; exact List.mem_singleton.mpr rfl)

/-! ## C6 -/

/-- A truthy TP or SL order id of a listed row survives the id-collecting
fold. -/
theorem mem_foldr_order_ids (l : List Position) (p : Position) (s : String)
    (hp : p ∈ l) (hs : s ≠ "")
    (hid : p.tp_order_id = some s ∨ p.sl_order_id = some s) :
    s ∈ l.foldr
      (fun p acc => optOrderId p.tp_order_id ++ optOrderId p.sl_order_id
        ++ acc) [] := by
  induction l with
  | nil => cases hp
  | cons q rest ih =>
    rw [List.foldr_cons]
    rcases List.mem_cons.mp hp with heq | hmem
    · subst heq
      rcases hid with h | h
      · refine List.mem_append.mpr (Or.inl (List.mem_append.mpr (Or.inl ?_)))
        rw [h]
        simp [optOrderId, hs]
      · refine List.mem_append.mpr (Or.inl (List.mem_append.mpr (Or.inr ?_)))
        rw [h]
        simp [optOrderId, hs]
    · exact List.mem_append.mpr (Or.inr (ih hmem))

/-- A truthy TP or SL order id of an open row is in `active_tp_sl_ids`. -/
theorem mem_active_tp_sl_ids (db : List Position) (p : Position)
    (s : String) (hp : p ∈ db) (ho : p.is_open = true) (hs : s ≠ "")
    (hid : p.tp_order_id = some s ∨ p.sl_order_id = some s) :
    s ∈ active_tp_sl_ids db := by
  have hpf : p ∈ db.filter (fun p => p.is_open) :=
    List.mem_filter.mpr ⟨hp, by simp [ho]⟩
  exact mem_foldr_order_ids _ p s hpf hs hid

/-- Soundness of the orphan canceller: every cancelled id is truthy and
lies outside `active_tp_sl_ids`. -/
theorem cancel_orphaned_orders_sound (db : List Position)
    (all_orders : List AlgoOrder) (all_positions : List ExchangePosition)
    (aid : String)
    (h : aid ∈ cancel_orphaned_orders db all_orders all_positions) :
    aid ≠ "" ∧ aid ∉ active_tp_sl_ids db := by
  unfold cancel_orphaned_orders at h
  dsimp only at h
  obtain ⟨o, ho, hfo⟩ := List.mem_filterMap.mp h
  by_cases h1 : o.state ≠ "live"
  · rw [if_pos h1] at hfo
    exact Option.noConfusion hfo
  · rw [if_neg h1] at hfo
    by_cases h2 : truthyStr o.algoId = true ∧
        o.algoId.getD "" ∈ active_tp_sl_ids db
    · rw [if_pos h2] at hfo
      exact Option.noConfusion hfo
    · rw [if_neg h2] at hfo
      by_cases h3 : (o.instId, o.posSide) ∉ position_keys all_positions
      · rw [if_pos h3] at hfo
        cases halg : o.algoId with
        | none =>
          rw [halg] at hfo
          exact Option.noConfusion hfo
        | some a =>
          rw [halg] at hfo
          dsimp only at hfo
          by_cases h4 : a = ""
          · rw [if_pos h4] at hfo
            exact Option.noConfusion hfo
          · rw [if_neg h4] at hfo
            have ha : a = aid := Option.some.inj hfo
            subst ha
            refine ⟨h4, fun hmem => h2 ⟨?_, ?_⟩⟩
            · simp [truthyStr, halg, h4]
            · simpa [halg] using hmem
      · rw [if_neg h3] at hfo
        exact Option.noConfusion hfo

/-- C6: a run of the orphan canceller never issues a cancel for an id that
is the current `tp_order_id` or `sl_order_id` of any open row, for every
configuration of exchange-side orders and positions. -/
theorem C6_never_cancels_tracked (db : List Position)
    (all_orders : List AlgoOrder) (all_positions : List ExchangePosition)
    (p : Position) (aid : String) (hp : p ∈ db) (ho : p.is_open = true)
    (hc : aid ∈ cancel_orphaned_orders db all_orders all_positions) :
    p.tp_order_id ≠ some aid ∧ p.sl_order_id ≠ some aid := by
  obtain ⟨hne, hnmem⟩ :=
    cancel_orphaned_orders_sound db all_orders all_positions aid hc
  constructor
  · intro htp
    exact hnmem (mem_active_tp_sl_ids db p aid hp ho hne (Or.inl htp))
  · intro hsl
    exact hnmem (mem_active_tp_sl_ids db p aid hp ho hne (Or.inr hsl))

/-- An orphaned live order (no matching exchange position, id untracked)
used by the C6 witness. -/
def orphanOrder : AlgoOrder where
  instId := "ETH-USDT-SWAP"
  posSide := "long"
  ordType := "trigger"
  state := "live"
  algoId := some "zzz"

/-- Witness for C6: the canceller cancels the orphan id `"zzz"`, and that
id differs from the open sample row's TP and SL ids. -/
theorem C6_never_cancels_tracked_witness :
    posSample.tp_order_id ≠ some "zzz" ∧
    posSample.sl_order_id ≠ some "zzz" :=
  C6_never_cancels_tracked [posSample] [orphanOrder] [] posSample "zzz"
    (List.mem_singleton.mpr rfl) rfl
    (by simp [cancel_orphaned_orders, orphanOrder, truthyStr,
      active_tp_sl_ids, optOrderId, posSample, position_keys,
      List.filterMap_cons])

/-! ## C8 -/

/-- A bot state whose monitor is running. -/
def botRunning : BotState where
  monitor := some ⟨true, 5⟩
  manually_stopped := false
  positions := []
  recovery_enabled := none

/-- A bot state whose monitor exists but is stopped. -/
def botStopped : BotState where
  monitor := some ⟨false, 5⟩
  manually_stopped := true
  positions := []
  recovery_enabled := some "false"

/-- C8 fails on the code: `start_monitor` on an already-running monitor
falls through to `return False` (and is not a no-op: it still rewrites the
settings), and `stop_monitor` on a stopped monitor also returns `False`;
neither reports success. -/
theorem C8_counterexample :
    (start_monitor botRunning 5).1 = false ∧
    (start_monitor botRunning 5).2 ≠ botRunning ∧
    (stop_monitor botStopped).1 = false := by
  refine ⟨rfl, ?_, rfl⟩
  intro heq
  have h := congrArg BotState.recovery_enabled heq
  simp [start_monitor, botRunning] at h

/-- C8 (amended): `start_monitor` while the monitor is running leaves the
monitor object (hence the scheduler run-state) unchanged but still performs
the settings side effects and returns `False`; `stop_monitor` while the
monitor is absent or stopped changes nothing and returns `False`.  Neither
call reports success in the already-started/already-stopped case. -/
theorem C8_idempotency_amended (s : BotState) (d : ℤ) :
    (monitor_is_running s = true →
      (start_monitor s d).1 = false ∧
      ((start_monitor s d).2).monitor = s.monitor ∧
      ((start_monitor s d).2).recovery_enabled = some "true") ∧
    (monitor_is_running s = false → stop_monitor s = (false, s)) := by
  constructor
  · intro hrun
    unfold monitor_is_running at hrun
    unfold start_monitor
    cases hm : s.monitor with
    | none =>
      rw [hm] at hrun
      exact absurd hrun (by simp)
    | some m =>
      rw [hm] at hrun
      have hr : m.running = true := hrun
      dsimp only
      rw [if_neg (by simp [hr])]
      exact ⟨rfl, rfl, rfl⟩
  · intro hstop
    unfold monitor_is_running at hstop
    unfold stop_monitor
    cases hm : s.monitor with
    | none => rfl
    | some m =>
      rw [hm] at hstop
      have hs2 : m.running = false := hstop
      dsimp only
      rw [if_neg (by simp [hs2])]

/-- Witness for C8 (amended) at the running and the stopped sample
states. -/
theorem C8_idempotency_amended_witness :
    ((start_monitor botRunning 5).1 = false ∧
      ((start_monitor botRunning 5).2).monitor = botRunning.monitor ∧
      ((start_monitor botRunning 5).2).recovery_enabled = some "true") ∧
    stop_monitor botStopped = (false, botStopped) :=
  ⟨(C8_idempotency_amended botRunning 5).1 rfl,
   (C8_idempotency_amended botStopped 5).2 rfl⟩

/-! ## C9 -/

/-- C9: every `start_monitor` invocation rewrites the rows with
`orders_disabled := false` and force-sets the `recovery_enabled` setting to
`"true"`, regardless of the previous state and of which branch then
runs. -/
theorem C9_start_monitor_resets (s : BotState) (d : ℤ) :
    ((start_monitor s d).2).positions
      = s.positions.map (fun p => { p with orders_disabled := false }) ∧
    (∀ p ∈ ((start_monitor s d).2).positions, p.orders_disabled = false) ∧
    ((start_monitor s d).2).recovery_enabled = some "true" := by
  have hshape : ((start_monitor s d).2).positions
      = s.positions.map (fun p => { p with orders_disabled := false }) ∧
      ((start_monitor s d).2).recovery_enabled = some "true" := by
    unfold start_monitor
    dsimp only
    cases s.monitor with
    | none => exact ⟨rfl, rfl⟩
    | some m =>
      dsimp only
      split_ifs
      · exact ⟨rfl, rfl⟩
      · exact ⟨rfl, rfl⟩
  refine ⟨hshape.1, ?_, hshape.2⟩
  intro p hp
  rw [hshape.1] at hp
  obtain ⟨q, _, hq⟩ := List.mem_map.mp hp
  rw [← hq]

/-- A state with a disabled position and recovery turned off, for the C9
witness. -/
def botDisabled : BotState where
  monitor := none
  manually_stopped := true
  positions := [{ posSample with orders_disabled := true }]
  recovery_enabled := some "false"

/-- Witness for C9: starting from `botDisabled` re-enables the row's order
restoration and the recovery setting. -/
theorem C9_start_monitor_resets_witness :
    ((start_monitor botDisabled 5).2).positions
      = [{ posSample with orders_disabled := false }] ∧
    ({ posSample with orders_disabled := false } : Position).orders_disabled
      = false ∧
    ((start_monitor botDisabled 5).2).recovery_enabled = some "true" :=
  ⟨(C9_start_monitor_resets botDisabled 5).1,
   (C9_start_monitor_resets botDisabled 5).2.1 _
     (by rw [(C9_start_monitor_resets botDisabled 5).1]
         exact List.mem_singleton.mpr rfl),
   (C9_start_monitor_resets botDisabled 5).2.2⟩

end BinanceFutureBot
